import Mathlib

/-!
Verification of the backup-recovery orchestrator and local backup manager.

The definitions below are a shallow embedding of the Python sources
`scripts/backup_orchestrator.py` and `scripts/local_backup_manager.py`:
file paths are strings, the filesystem state relevant to an operation is
passed explicitly, and machine effects (copying, zipping, deleting) are
modelled by the data they produce.
-/

namespace BackupRecovery

/-! ## Path helpers (models of Python `pathlib` operations) -/

/-- Lowercase a string character-by-character (model of `str.lower()` on
ASCII paths). -/
def strLower (s : String) : String := ⟨s.toList.map Char.toLower⟩

/-- Whether a path string starts with a slash (an absolute POSIX path). -/
def startsWithSlash (s : String) : Bool :=
  match s.toList with
  | '/' :: _ => true
  | _ => false

/-- Split a character list at every occurrence of a separator. -/
def splitChars (sep : Char) (acc : List Char) : List Char → List (List Char)
  | [] => [acc.reverse]
  | c :: cs =>
      if c = sep then acc.reverse :: splitChars sep [] cs
      else splitChars sep (c :: acc) cs

/-- Split a path into its non-empty components. -/
def pathComponents (s : String) : List String :=
  ((splitChars '/' [] s.toList).filter (fun c => !c.isEmpty)).map
    (fun cs => ⟨cs⟩)

/-- Model of Python `PurePath.suffix`: the extension of the final
component, including the leading dot; empty when the name has no dot, when
its only dot is the leading character, or when the dot is last. -/
def pathEnding (p : String) : String :=
  let cs := ((splitChars '/' [] p.toList).getLastD []).reverse
  match (List.range cs.length).filter
      (fun i => decide (cs.get? i = some '.')) |>.head? with
  | some i =>
      if 0 < i ∧ 0 < cs.length - 1 - i then ⟨(cs.take (i + 1)).reverse⟩ else ""
  | none => ""

/-- Substring test on character lists (model of Python's `in` on
strings). -/
def containsSub (needle : List Char) : List Char → Bool
  | [] => needle.isEmpty
  | c :: cs => needle.isPrefixOf (c :: cs) || containsSub needle cs

/-- Fueled worker for `globMatch1`; the fuel only bounds the recursion
depth and never runs out when it starts at the summed lengths. -/
def globMatchFuel : Nat → List Char → List Char → Bool
  | 0, _, _ => false
  | _ + 1, [], [] => true
  | fuel + 1, '*' :: ps, [] => globMatchFuel fuel ps []
  | fuel + 1, '*' :: ps, c :: cs =>
      globMatchFuel fuel ps (c :: cs) || globMatchFuel fuel ('*' :: ps) cs
  | fuel + 1, '?' :: ps, _ :: cs => globMatchFuel fuel ps cs
  | fuel + 1, p :: ps, c :: cs => p == c && globMatchFuel fuel ps cs
  | _ + 1, _ :: _, [] => false
  | _ + 1, [], _ :: _ => false

/-- One-component fnmatch-style glob matching (model of the per-component
matching done by Python `PurePath.match`): `*` matches any run of
characters inside the component, `?` matches one character, other
characters match literally.  Character classes are not modelled. -/
def globMatch1 (ps cs : List Char) : Bool :=
  globMatchFuel (ps.length + cs.length + 1) ps cs

/-- Model of Python `PurePath.match(pattern)`: a relative pattern must
match the trailing components of the path, an absolute pattern must match
all of them. -/
def pathMatch (path pattern : String) : Bool :=
  let pcs := pathComponents path
  let pats := pathComponents pattern
  if pats.isEmpty then false
  else if startsWithSlash pattern then
    pcs.length == pats.length &&
      (pcs.zip pats).all (fun pc => globMatch1 pc.2.toList pc.1.toList)
  else
    pats.length ≤ pcs.length &&
      ((pcs.drop (pcs.length - pats.length)).zip pats).all
        (fun pc => globMatch1 pc.2.toList pc.1.toList)

/-! ## Classifier (`BackupOrchestrator._classify_data`) -/

/-- The `classification` section of the configuration. -/
structure ClassificationRules where
  sensitiveKeywords : List String
  sensitiveExtensions : List String
  criticalPatterns : List String
  deriving Repr, DecidableEq

/-- Tier assignment produced by classification; field names follow the
keys of the dictionary built in `_classify_data`. -/
structure TierAssignment where
  aws_primary : List String
  proton_sensitive : List String
  local_airgapped : List String
  deriving Repr, DecidableEq

/-- `is_sensitive` from `_classify_data`: some sensitive keyword occurs in
the lowercased path, or the lowercased extension is listed. -/
def isSensitive (rules : ClassificationRules) (filePath : String) : Bool :=
  rules.sensitiveKeywords.any
    (fun kw => containsSub kw.toList (strLower filePath).toList)
  || rules.sensitiveExtensions.contains (strLower (pathEnding filePath))

/-- `is_critical` from `_classify_data`: the path matches some critical
glob pattern. -/
def isCritical (rules : ClassificationRules) (filePath : String) : Bool :=
  rules.criticalPatterns.any (fun pat => pathMatch filePath pat)

/-- The per-file body of the loop in `_classify_data`. -/
def classifyStep (rules : ClassificationRules) (acc : TierAssignment)
    (filePath : String) : TierAssignment :=
  let s := isSensitive rules filePath
  let c := isCritical rules filePath
  let acc1 :=
    if s then
      { acc with proton_sensitive := acc.proton_sensitive ++ [filePath] }
    else acc
  if c then
    { acc1 with
        aws_primary := acc1.aws_primary ++ [filePath],
        local_airgapped := acc1.local_airgapped ++ [filePath] }
  else if !s then
    { acc1 with aws_primary := acc1.aws_primary ++ [filePath] }
  else acc1

/-- `BackupOrchestrator._classify_data`: fold the per-file step over the
discovered files, starting from empty tiers. -/
def classifyData (rules : ClassificationRules) (files : List String) :
    TierAssignment :=
  files.foldl (classifyStep rules) ⟨[], [], []⟩

/-! ## Local backup manager (`LocalBackupManager`) -/

/-- Abstract state of one source path as the copy loop in `backup_files`
observes it: a regular file of some size, a path that is missing or not a
regular file, or a path whose copy raises `OSError`. -/
inductive FileState where
  | regular (size : Nat)
  | missing
  | copyError (msg : String)
  deriving Repr, DecidableEq

/-- One entry of the file list handed to `backup_files`, together with its
filesystem state. -/
structure SourceFile where
  path : String
  state : FileState
  deriving Repr, DecidableEq

/-- Status of a FileRecord in the snapshot metadata. -/
inductive RecStatus where
  | success
  | failed
  deriving Repr, DecidableEq

/-- A FileRecord as appended to `metadata['files']` in `backup_files`. -/
structure FileRecord where
  source : String
  destination : Option String
  size : Option Nat
  status : RecStatus
  errorType : Option String
  deriving Repr, DecidableEq

/-- Model of `file_path.relative_to(file_path.anchor)`: strip the leading
slash of an absolute path. -/
def relToAnchor (p : String) : String :=
  if startsWithSlash p then ⟨p.toList.drop 1⟩ else p

/-- Destination path of a copied file: `backup_path / rel_path`. -/
def destPath (backupPath : String) (src : String) : String :=
  backupPath ++ "/" ++ relToAnchor src

/-- The per-file body of the copy loop in `backup_files`: an existing
regular file is copied and gets a success record with its size; a missing
path gets a failed record tagged `FileNotFoundError`; an `OSError` during
the copy gets a failed record tagged with the error type. -/
def backupRecord (backupPath : String) (f : SourceFile) : FileRecord :=
  match f.state with
  | .regular size =>
      ⟨f.path, some (destPath backupPath f.path), some size, .success, none⟩
  | .missing => ⟨f.path, none, none, .failed, some "FileNotFoundError"⟩
  | .copyError msg => ⟨f.path, none, none, .failed, some msg⟩

/-- Number of FileRecords with status `success`. -/
def countSuccess (recs : List FileRecord) : Nat :=
  (recs.filter (fun r => r.status == .success)).length

/-- `LocalBackupManager.backup_files`: when disabled it is a success no-op;
otherwise every file in the list is processed in order into a FileRecord
(no failure aborts the batch), the records are persisted as metadata, and
the call succeeds iff at least one record is a success. -/
def backup_files (enabled : Bool) (backupPath : String)
    (files : List SourceFile) : Bool × List FileRecord :=
  if !enabled then (true, [])
  else
    let records := files.map (backupRecord backupPath)
    (decide (0 < countSuccess records), records)

/-- On-disk result of one `backup_files` run: the snapshot directory. The
`storedFiles` are the destinations written by the copy loop; the metadata
file holds the FileRecords. -/
structure LooseSnapshot where
  backupPath : String
  storedFiles : List String
  records : List FileRecord
  deriving Repr, DecidableEq

/-- The snapshot directory produced by a `backup_files` run with the given
file list (the successful copies exist on disk, and the metadata is the
FileRecord list). -/
def create_snapshot (backupPath : String) (files : List SourceFile) :
    LooseSnapshot :=
  let recs := files.map (backupRecord backupPath)
  ⟨backupPath,
   recs.filterMap (fun r =>
     match r.status, r.destination with
     | .success, some d => some d
     | _, _ => none),
   recs⟩

/-- Absolute path of the snapshot's `backup-metadata.json`. -/
def metaPath (snap : LooseSnapshot) : String :=
  snap.backupPath ++ "/backup-metadata.json"

/-- The set of on-disk files `_compress_backup` walks with
`backup_path.rglob('*')` and writes into the zip: every stored file plus
the metadata file, each distinct on-disk path once. -/
def zipSrcFiles (snap : LooseSnapshot) : List String :=
  (snap.storedFiles ++ [metaPath snap]).dedup

/-- `LocalBackupManager._restore_from_zip`: every non-directory entry of
the archive is extracted; returns success iff at least one entry was
restored, together with the restored count. -/
def restore_from_zip (entries : List String) : Bool × Nat :=
  (decide (0 < entries.length), entries.length)

/-- `LocalBackupManager._restore_from_directory`: for every FileRecord
with status `success` whose stored destination exists, copy it to the
target under the original base name; returns success iff at least one file
was restored, together with the restored count. -/
def restore_from_directory (snap : LooseSnapshot) : Bool × Nat :=
  let n :=
    (snap.records.filter (fun r =>
      r.status == .success &&
        match r.destination with
        | some d => snap.storedFiles.contains d
        | none => false)).length
  (decide (0 < n), n)

/-- The backup root directory as `restore_files` probes it: which run ids
have a zip archive (with its entry list) and which have a loose snapshot
directory. -/
structure BackupStore where
  zipSnaps : List (String × List String)
  dirSnaps : List (String × LooseSnapshot)

/-- `LocalBackupManager.restore_files`: disabled is a success no-op;
otherwise the compressed archive is checked first, then the loose
directory; when neither exists the restore fails and writes nothing
(count 0). -/
def restore_files (enabled : Bool) (store : BackupStore)
    (backupId : String) : Bool × Nat :=
  if !enabled then (true, 0)
  else
    match store.zipSnaps.lookup backupId with
    | some entries => restore_from_zip entries
    | none =>
        match store.dirSnaps.lookup backupId with
        | some snap => restore_from_directory snap
        | none => (false, 0)

/-- Compression ratio as computed in `_compress_backup`:
`(1 - compressed / original) * 100` with a guard returning `0` when the
original size is zero. -/
def compressRatioPct (originalSize compressedSize : Nat) : ℚ :=
  if originalSize > 0 then
    (1 - (compressedSize : ℚ) / (originalSize : ℚ)) * 100
  else 0

/-- Total on-disk size of the snapshot directory summed by
`_compress_backup` (sizes of the copied files plus the metadata file). -/
def snapDiskSize (snap : LooseSnapshot) (metaSize : Nat) : Nat :=
  ((snap.records.filter (fun r => r.status == .success)).map
    (fun r => r.size.getD 0)).sum + metaSize

/-- `LocalBackupManager._compress_backup`: archives the snapshot and logs
the compression ratio computed from the summed original size and the zip
size; returns the ratio it reports. -/
def compress_backup (snap : LooseSnapshot) (metaSize zipSize : Nat) :
    Bool × ℚ :=
  (true, compressRatioPct (snapDiskSize snap metaSize) zipSize)

/-! ## Retention sweep (`LocalBackupManager._cleanup_old_backups`) -/

/-- Result of reading and parsing a snapshot's metadata timestamp. -/
inductive MetaParse where
  | ok (timestamp : Int)
  | corrupt
  | missingFile
  deriving Repr, DecidableEq

/-- A directory entry of the backup root as the sweep's first loop sees
it. -/
structure DirEntry where
  name : String
  isDir : Bool
  meta : MetaParse
  deriving Repr, DecidableEq

/-- A zip file in the backup root as the sweep's second loop sees it. The
`meta` field records what the archive's metadata would parse to; the sweep
never reads it. -/
structure ZipFileEntry where
  name : String
  mtime : Int
  meta : MetaParse
  deriving Repr, DecidableEq

/-- Backup root contents scanned by the retention sweep. -/
structure SweepStore where
  dirs : List DirEntry
  zips : List ZipFileEntry
  deriving Repr, DecidableEq

/-- Keep-predicate of the sweep's directory loop: non-directories and
entries without metadata are skipped; a parse failure is logged and the
entry kept; an entry with parsed timestamp older than the cutoff is
removed. -/
def dirKept (cutoff : Int) (d : DirEntry) : Bool :=
  if !d.isDir then true
  else
    match d.meta with
    | .missingFile => true
    | .corrupt => true
    | .ok t => !decide (t < cutoff)

/-- `LocalBackupManager._cleanup_old_backups` with
`cutoff = now - retention_days` (times in seconds): directories are
removed by parsed metadata timestamp, zip files by filesystem mtime. -/
def cleanup_old_backups (store : SweepStore) (now retentionDays : Int) :
    SweepStore :=
  let cutoff := now - retentionDays * 86400
  ⟨store.dirs.filter (dirKept cutoff),
   store.zips.filter (fun z => !decide (z.mtime < cutoff))⟩

/-! ## Listing (`LocalBackupManager.list_backups`) -/

/-- The fields of a snapshot's persisted metadata that listing uses. -/
structure BackupSummary where
  backup_id : String
  timestamp : String
  deriving Repr, DecidableEq

/-- Result of reading a snapshot's metadata during listing. -/
inductive MetaRead where
  | ok (summary : BackupSummary)
  | unreadable
  deriving Repr, DecidableEq

/-- One element of the list returned by `list_backups`: the metadata
tagged with its layout. -/
structure ListedBackup where
  summary : BackupSummary
  compressed : Bool
  deriving Repr, DecidableEq

/-- Backup root contents scanned by `list_backups`: metadata read results
for the loose snapshot directories and for the zip archives. -/
structure ListStore where
  dirReads : List MetaRead
  zipReads : List MetaRead

/-- Descending-timestamp relation used for the final sort (Python
`sort(key=timestamp, reverse=True)` compares ISO-8601 strings). -/
def tsGE (a b : ListedBackup) : Prop :=
  b.summary.timestamp ≤ a.summary.timestamp

instance : DecidableRel tsGE := fun a b =>
  inferInstanceAs (Decidable (b.summary.timestamp ≤ a.summary.timestamp))

instance : IsTotal ListedBackup tsGE :=
  ⟨fun a b => le_total b.summary.timestamp a.summary.timestamp⟩

instance : IsTrans ListedBackup tsGE :=
  ⟨fun _ _ _ hab hbc => le_trans hbc hab⟩

/-- `LocalBackupManager.list_backups`: collect the readable metadata of
loose snapshots (tagged uncompressed) and of archives (tagged compressed),
skipping unreadable ones, and sort by timestamp descending with a stable
sort. -/
def list_backups (store : ListStore) : List ListedBackup :=
  let loose := store.dirReads.filterMap (fun m =>
    match m with
    | .ok s => some ⟨s, false⟩
    | .unreadable => none)
  let compressed := store.zipReads.filterMap (fun m =>
    match m with
    | .ok s => some ⟨s, true⟩
    | .unreadable => none)
  List.insertionSort tsGE (loose ++ compressed)

/-! ## Orchestrator (`BackupOrchestrator.backup_profile`) -/

/-- The statistics dictionary initialised in `BackupOrchestrator.__init__`
(the fields the run mutates). -/
structure Stats where
  files_processed : Nat
  files_failed : Nat
  tiers_completed : List String
  deriving Repr, DecidableEq

/-- The persisted run summary written by `_log_summary`. -/
structure RunSummary where
  files_processed : Nat
  files_failed : Nat
  tiers_completed : List String
  deriving Repr, DecidableEq

/-- The list of per-tier outcomes accumulated in `backup_profile`: one
boolean per tier whose assignment is non-empty, in dispatch order. -/
def tierResults (c : TierAssignment) (awsR protonR localR : Bool) :
    List Bool :=
  (if !c.aws_primary.isEmpty then [awsR] else []) ++
    (if !c.proton_sensitive.isEmpty then [protonR] else []) ++
      (if !c.local_airgapped.isEmpty then [localR] else [])

/-- `tiers_completed` after the dispatches: each invoked tier that
succeeded appends its name (done inside `_backup_to_aws` /
`_backup_to_proton` / `_backup_to_local`). -/
def completedTiers (c : TierAssignment) (awsR protonR localR : Bool) :
    List String :=
  (if !c.aws_primary.isEmpty && awsR then ["aws_primary"] else []) ++
    (if !c.proton_sensitive.isEmpty && protonR then ["proton_sensitive"]
     else []) ++
      (if !c.local_airgapped.isEmpty && localR then ["local_airgapped"]
       else [])

/-- `BackupOrchestrator.backup_profile`: an unknown profile fails; zero
discovered files succeed vacuously (without writing a summary); otherwise
the files are classified, each non-empty tier is dispatched (its outcome
given here as `awsR` / `protonR` / `localR`), statistics are updated, the
result is `all(results)` when some tier was invoked and `False` otherwise,
and a run summary is persisted.  Returns (success, final stats, summary
written). -/
def backup_profile (profileFound : Bool) (rules : ClassificationRules)
    (files : List String) (awsR protonR localR : Bool) :
    Bool × Stats × Option RunSummary :=
  let stats0 : Stats := ⟨0, 0, []⟩
  if !profileFound then (false, stats0, none)
  else if files.isEmpty then (true, stats0, none)
  else
    let c := classifyData rules files
    let results := tierResults c awsR protonR localR
    let stats1 : Stats :=
      ⟨files.length, stats0.files_failed, completedTiers c awsR protonR localR⟩
    let ok := if results.isEmpty then false else results.all id
    (ok, stats1,
     some ⟨stats1.files_processed, stats1.files_failed, stats1.tiers_completed⟩)

/-! ## Concrete data used to instantiate the theorems -/

/-- A small rule set: keyword `secret`, extension `.key`, critical pattern
`config*`. -/
def demoRules : ClassificationRules := ⟨["secret"], [".key"], ["config*"]⟩

/-- Three discovered files: one sensitive, one critical, one plain. -/
def demoFiles : List String :=
  ["/h/secret.key", "/h/config.json", "/h/notes.txt"]

/-- A batch of three files where the second one is missing. -/
def demoBatch : List SourceFile :=
  [⟨"/d/f1.txt", .regular 3⟩, ⟨"/d/f2.txt", .missing⟩,
   ⟨"/d/f3.txt", .regular 5⟩]

/-- A snapshot of a single successfully copied file. -/
def oneFileSnap : LooseSnapshot := create_snapshot "/b" [⟨"/a/f1", .regular 3⟩]

/-- A backup root where run `run1` has both an archive and a loose
directory. -/
def demoStore : BackupStore :=
  ⟨[("run1", ["/x/f1", "/x/backup-metadata.json"])], [("run1", oneFileSnap)]⟩

/-- A backup root for the retention sweep: one stale dir, one corrupt dir,
one corrupt stale zip, one fresh zip. -/
def demoSweepStore : SweepStore :=
  ⟨[⟨"backup-old", true, .ok 0⟩, ⟨"backup-bad", true, .corrupt⟩],
   [⟨"backup-z.zip", 10 * 86400, .corrupt⟩,
    ⟨"backup-new.zip", 19 * 86400, .ok (19 * 86400)⟩]⟩

theorem classifyStep_fold (rules : ClassificationRules) (files : List String)
    (acc : TierAssignment) :
    files.foldl (classifyStep rules) acc =
      ⟨acc.aws_primary ++
         files.filter (fun f => isCritical rules f || !isSensitive rules f),
       acc.proton_sensitive ++ files.filter (isSensitive rules),
       acc.local_airgapped ++ files.filter (isCritical rules)⟩ := by
  induction files generalizing acc with
  | nil => simp
  | cons f fs ih =>
    rw [List.foldl_cons, ih]
    by_cases hs : isSensitive rules f <;> by_cases hc : isCritical rules f <;>
      simp [classifyStep, hs, hc]

theorem classifyData_eq (rules : ClassificationRules) (files : List String) :
    classifyData rules files =
      ⟨files.filter (fun f => isCritical rules f || !isSensitive rules f),
       files.filter (isSensitive rules),
       files.filter (isCritical rules)⟩ := by
  rw [classifyData, classifyStep_fold]
  simp

/-- C1: a file placed in the sensitive tier by `_classify_data` is absent
from the primary tier unless it also matches a critical pattern, and every
file matching a critical pattern is placed in both the primary and the
air-gapped tier. -/
theorem classify_sensitive_exclusion_c1 (rules : ClassificationRules)
    (files : List String) (f : String) (hmem : f ∈ files) :
    ((f ∈ (classifyData rules files).proton_sensitive ∧
        f ∈ (classifyData rules files).aws_primary) →
      isCritical rules f = true) ∧
    (isCritical rules f = true →
      f ∈ (classifyData rules files).aws_primary ∧
        f ∈ (classifyData rules files).local_airgapped) := by
  rw [classifyData_eq]
  refine ⟨fun h => ?_, fun hc => ?_⟩
  · rcases h with ⟨hp, ha⟩
    rw [List.mem_filter] at hp ha
    rcases ha with ⟨-, hcrit⟩
    rcases hp with ⟨-, hs⟩
    simpa [hs] using hcrit
  · exact ⟨List.mem_filter.mpr ⟨hmem, by simp [hc]⟩,
      List.mem_filter.mpr ⟨hmem, hc⟩⟩

theorem classify_sensitive_exclusion_c1_witness :
    isCritical demoRules "/h/config.json" = true ∧
    ("/h/config.json" ∈ (classifyData demoRules demoFiles).aws_primary ∧
      "/h/config.json" ∈ (classifyData demoRules demoFiles).local_airgapped) :=
  ⟨by decide,
   (classify_sensitive_exclusion_c1 demoRules demoFiles "/h/config.json"
      (by decide)).2 (by decide)⟩

/-- C10: classification is total — every input file is assigned to at
least one of the three tiers, so no discovered file is dropped. -/
theorem classify_total_c10 (rules : ClassificationRules)
    (files : List String) (f : String) (hmem : f ∈ files) :
    f ∈ (classifyData rules files).aws_primary ∨
    f ∈ (classifyData rules files).proton_sensitive ∨
    f ∈ (classifyData rules files).local_airgapped := by
  rw [classifyData_eq]
  by_cases hs : isSensitive rules f
  · exact Or.inr (Or.inl (List.mem_filter.mpr ⟨hmem, hs⟩))
  · exact Or.inl (List.mem_filter.mpr ⟨hmem, by simp [hs]⟩)

theorem classify_total_c10_witness :
    "/h/notes.txt" ∈ (classifyData demoRules demoFiles).aws_primary ∨
    "/h/notes.txt" ∈ (classifyData demoRules demoFiles).proton_sensitive ∨
    "/h/notes.txt" ∈ (classifyData demoRules demoFiles).local_airgapped :=
  classify_total_c10 demoRules demoFiles "/h/notes.txt" (by decide)

/-- C2: `backup_files` records a missing or non-regular file as a failed
FileRecord without aborting the batch (every input file yields a record),
and returns success exactly when at least one FileRecord is a success. -/
theorem backup_files_partial_failure_c2 (enabled : Bool) (bp : String)
    (files : List SourceFile) (hen : enabled = true) :
    (backup_files enabled bp files).2.length = files.length ∧
    (∀ f ∈ files, f.state = .missing →
      (⟨f.path, none, none, .failed, some "FileNotFoundError"⟩ : FileRecord) ∈
        (backup_files enabled bp files).2) ∧
    ((backup_files enabled bp files).1 = true ↔
      0 < countSuccess (backup_files enabled bp files).2) := by
  subst hen
  refine ⟨by simp [backup_files], fun f hf hm => ?_, by simp [backup_files]⟩
  simp only [backup_files, Bool.not_true, Bool.false_eq_true, if_false,
    List.mem_map]
  exact ⟨f, hf, by simp [backupRecord, hm]⟩

theorem backup_files_partial_failure_c2_witness :
    (backup_files true "/b/run1" demoBatch).1 = true ∧
    countSuccess (backup_files true "/b/run1" demoBatch).2 = 2 ∧
    ((backup_files true "/b/run1" demoBatch).2.filter
      (fun r => r.status == .failed)).length = 1 ∧
    (backup_files true "/b/run1" demoBatch).2.length = 3 :=
  ⟨(backup_files_partial_failure_c2 true "/b/run1" demoBatch rfl).2.2.mpr
      (by decide),
   by decide, by decide, by decide⟩

theorem create_snapshot_stored_length (bp : String) (files : List SourceFile) :
    (create_snapshot bp files).storedFiles.length =
      countSuccess (create_snapshot bp files).records := by
  induction files with
  | nil => rfl
  | cons f fs ih =>
    cases hstate : f.state <;>
      simp only [create_snapshot, countSuccess, List.map_cons, backupRecord,
        hstate, List.filterMap_cons, List.filter_cons] at ih ⊢ <;>
      simp_all

theorem success_dest_stored (bp : String) (files : List SourceFile)
    (r : FileRecord) (hr : r ∈ (create_snapshot bp files).records)
    (hs : r.status = .success) :
    ∃ d, r.destination = some d ∧
      d ∈ (create_snapshot bp files).storedFiles := by
  have hr' := hr
  simp only [create_snapshot, List.mem_map] at hr'
  obtain ⟨f, -, heq⟩ := hr'
  subst heq
  cases hstate : f.state with
  | regular size =>
      refine ⟨destPath bp f.path, by simp [backupRecord, hstate], ?_⟩
      simp only [create_snapshot, List.mem_filterMap]
      exact ⟨backupRecord bp f, hr, by simp [backupRecord, hstate]⟩
  | missing => simp [backupRecord, hstate] at hs
  | copyError msg => simp [backupRecord, hstate] at hs

theorem restore_dir_eq (bp : String) (files : List SourceFile) :
    restore_from_directory (create_snapshot bp files) =
      (decide (0 < countSuccess (create_snapshot bp files).records),
       countSuccess (create_snapshot bp files).records) := by
  have hcong : ∀ r ∈ (create_snapshot bp files).records,
      (r.status == RecStatus.success &&
        match r.destination with
        | some d => (create_snapshot bp files).storedFiles.contains d
        | none => false) = (r.status == RecStatus.success) := by
    intro r hr
    by_cases hs : r.status = .success
    · obtain ⟨d, hd, hdm⟩ := success_dest_stored bp files r hr hs
      simp [hs, hd, hdm]
    · simp [hs]
  unfold restore_from_directory countSuccess
  rw [List.filter_congr hcong]

/-- C3 counterexample: for a snapshot with exactly one successful
FileRecord, restore from the archived layout reports 2 restored files (the
metadata file is an archive entry and is extracted too), not 1. -/
theorem restore_count_c3_counterexample :
    countSuccess oneFileSnap.records = 1 ∧
    (restore_from_zip (zipSrcFiles oneFileSnap)).2 = 2 := by decide

/-- C3 (amended): after `create_snapshot` with at least one successful
FileRecord, a loose-directory restore succeeds and restores exactly the
successful-FileRecord count; an archived restore succeeds but restores
one file more (the metadata file stored in the archive), counted over the
distinct stored destinations. -/
theorem restore_counts_c3 (bp : String) (files : List SourceFile)
    (hpos : 0 < countSuccess (create_snapshot bp files).records)
    (hnodup : (create_snapshot bp files).storedFiles.Nodup)
    (hmeta : metaPath (create_snapshot bp files) ∉
      (create_snapshot bp files).storedFiles) :
    restore_from_directory (create_snapshot bp files) =
      (true, countSuccess (create_snapshot bp files).records) ∧
    restore_from_zip (zipSrcFiles (create_snapshot bp files)) =
      (true, countSuccess (create_snapshot bp files).records + 1) := by
  constructor
  · rw [restore_dir_eq]
    simp [hpos]
  · have hnd : ((create_snapshot bp files).storedFiles ++
        [metaPath (create_snapshot bp files)]).Nodup := by
      rw [List.nodup_append]
      refine ⟨hnodup, List.nodup_singleton _, fun a ha ha' => ?_⟩
      simp only [List.mem_singleton] at ha'
      exact hmeta (ha' ▸ ha)
    unfold restore_from_zip zipSrcFiles
    rw [List.dedup_eq_self.mpr hnd]
    have hlen : ((create_snapshot bp files).storedFiles ++
        [metaPath (create_snapshot bp files)]).length =
        countSuccess (create_snapshot bp files).records + 1 := by
      simp [create_snapshot_stored_length]
    rw [hlen]
    simp

theorem restore_counts_c3_witness :
    restore_from_directory (create_snapshot "/b2" demoBatch) =
      (true, countSuccess (create_snapshot "/b2" demoBatch).records) ∧
    restore_from_zip (zipSrcFiles (create_snapshot "/b2" demoBatch)) =
      (true, countSuccess (create_snapshot "/b2" demoBatch).records + 1) :=
  restore_counts_c3 "/b2" demoBatch (by decide) (by decide) (by decide)

/-- C4: `restore_files` probes the archive before the loose directory
(whenever an archive exists it is the one restored from, even if a loose
directory also exists), and when neither exists the restore fails and
writes no file (count 0). -/
theorem restore_probe_order_c4 (enabled : Bool) (store : BackupStore)
    (backupId : String) (hen : enabled = true) :
    (∀ entries, store.zipSnaps.lookup backupId = some entries →
      restore_files enabled store backupId = restore_from_zip entries) ∧
    (store.zipSnaps.lookup backupId = none →
      store.dirSnaps.lookup backupId = none →
      restore_files enabled store backupId = (false, 0)) := by
  subst hen
  refine ⟨fun e he => ?_, fun h1 h2 => ?_⟩
  · simp [restore_files, he]
  · simp [restore_files, h1, h2]

theorem restore_probe_order_c4_witness :
    restore_files true demoStore "run1" =
      restore_from_zip ["/x/f1", "/x/backup-metadata.json"] ∧
    restore_files true demoStore "missing-run" = (false, 0) :=
  ⟨(restore_probe_order_c4 true demoStore "run1" rfl).1
      ["/x/f1", "/x/backup-metadata.json"] (by decide),
   (restore_probe_order_c4 true demoStore "missing-run" rfl).2
      (by decide) (by decide)⟩

/-- C5 counterexample: an archived snapshot whose metadata cannot be
parsed is still deleted by the sweep when the zip file's mtime is older
than the cutoff — the zip loop never reads metadata. -/
theorem sweep_corrupt_zip_c5_counterexample :
    (⟨"backup-z.zip", 10 * 86400, .corrupt⟩ : ZipFileEntry) ∈
      demoSweepStore.zips ∧
    (⟨"backup-z.zip", 10 * 86400, .corrupt⟩ : ZipFileEntry).meta =
      .corrupt ∧
    (⟨"backup-z.zip", 10 * 86400, .corrupt⟩ : ZipFileEntry) ∉
      (cleanup_old_backups demoSweepStore (20 * 86400) 5).zips := by decide

/-- C5 (amended): for loose-directory snapshots the sweep deletes exactly
those whose parsed timestamp is older than the cutoff, keeps newer ones,
and keeps any whose metadata is missing or unparseable; archived (zip)
snapshots are instead deleted precisely when their file mtime is older
than the cutoff, regardless of their metadata. -/
theorem sweep_retention_c5 (store : SweepStore) (now days : Int) :
    (∀ d ∈ store.dirs, d.isDir = true → ∀ t, d.meta = .ok t →
      ((t < now - days * 86400 →
          d ∉ (cleanup_old_backups store now days).dirs) ∧
        (¬ t < now - days * 86400 →
          d ∈ (cleanup_old_backups store now days).dirs))) ∧
    (∀ d ∈ store.dirs, d.isDir = true → d.meta = .corrupt →
      d ∈ (cleanup_old_backups store now days).dirs) ∧
    (∀ z ∈ store.zips,
      z ∈ (cleanup_old_backups store now days).zips ↔
        ¬ z.mtime < now - days * 86400) := by
  refine ⟨fun d hd hdir t ht => ⟨fun hold hmem => ?_, fun hnew => ?_⟩,
    fun d hd hdir hc => ?_, fun z hz => ?_⟩
  · have := (List.mem_filter.mp hmem).2
    simp [dirKept, hdir, ht, hold] at this
  · exact List.mem_filter.mpr ⟨hd, by simp [dirKept, hdir, ht, hnew]⟩
  · exact List.mem_filter.mpr ⟨hd, by simp [dirKept, hdir, hc]⟩
  · constructor
    · intro hmem
      have := (List.mem_filter.mp hmem).2
      simpa using this
    · intro hnew
      exact List.mem_filter.mpr ⟨hz, by simpa using hnew⟩

theorem sweep_retention_c5_witness :
    (⟨"backup-old", true, .ok 0⟩ : DirEntry) ∉
      (cleanup_old_backups demoSweepStore (20 * 86400) 5).dirs ∧
    (⟨"backup-bad", true, .corrupt⟩ : DirEntry) ∈
      (cleanup_old_backups demoSweepStore (20 * 86400) 5).dirs ∧
    (⟨"backup-new.zip", 19 * 86400, .ok (19 * 86400)⟩ : ZipFileEntry) ∈
      (cleanup_old_backups demoSweepStore (20 * 86400) 5).zips :=
  ⟨((sweep_retention_c5 demoSweepStore (20 * 86400) 5).1
      ⟨"backup-old", true, .ok 0⟩ (by decide) rfl 0 rfl).1 (by decide),
   (sweep_retention_c5 demoSweepStore (20 * 86400) 5).2.1
      ⟨"backup-bad", true, .corrupt⟩ (by decide) rfl rfl,
   ((sweep_retention_c5 demoSweepStore (20 * 86400) 5).2.2
      ⟨"backup-new.zip", 19 * 86400, .ok (19 * 86400)⟩ (by decide)).mpr
      (by decide)⟩

/-- C6: `backup_profile` succeeds vacuously when no file was discovered;
otherwise it succeeds exactly when at least one tier was invoked and every
invoked tier's outcome was a success (in particular, with discovered files
but no invoked tier the result is failure). -/
theorem backup_profile_success_c6 (profileFound : Bool)
    (rules : ClassificationRules) (files : List String)
    (awsR protonR localR : Bool) (hpf : profileFound = true) :
    (files = [] →
      (backup_profile profileFound rules files awsR protonR localR).1 =
        true) ∧
    ((backup_profile profileFound rules files awsR protonR localR).1 =
        true ↔
      (files = [] ∨
        (((classifyData rules files).aws_primary ≠ [] ∨
            (classifyData rules files).proton_sensitive ≠ [] ∨
            (classifyData rules files).local_airgapped ≠ []) ∧
          ((classifyData rules files).aws_primary ≠ [] → awsR = true) ∧
          ((classifyData rules files).proton_sensitive ≠ [] →
            protonR = true) ∧
          ((classifyData rules files).local_airgapped ≠ [] →
            localR = true)))) := by
  subst hpf
  by_cases hfe : files = []
  · subst hfe
    simp [backup_profile]
  · refine ⟨fun h => absurd h hfe, ?_⟩
    have hne : files.isEmpty = false := by
      simpa [List.isEmpty_iff] using hfe
    by_cases h1 : (classifyData rules files).aws_primary = [] <;>
      by_cases h2 : (classifyData rules files).proton_sensitive = [] <;>
        by_cases h3 : (classifyData rules files).local_airgapped = [] <;>
          simp [backup_profile, tierResults, hne, hfe, h1, h2, h3,
            List.isEmpty_iff, and_assoc]

theorem backup_profile_success_c6_witness :
    (backup_profile true demoRules [] true true true).1 = true ∧
    (backup_profile true demoRules demoFiles true false true).1 = false :=
  ⟨(backup_profile_success_c6 true demoRules [] true true true rfl).1 rfl,
   by decide⟩

/-- C7: `_compress_backup` reports the compression ratio
`(1 - compressed / original) * 100` over the snapshot's summed original
size, and reports `0` when the original size is zero instead of dividing
by zero. -/
theorem compress_ratio_c7 (snap : LooseSnapshot) (metaSize zipSize : Nat) :
    (0 < snapDiskSize snap metaSize →
      (compress_backup snap metaSize zipSize).2 =
        (1 - (zipSize : ℚ) / (snapDiskSize snap metaSize : ℚ)) * 100) ∧
    (snapDiskSize snap metaSize = 0 →
      (compress_backup snap metaSize zipSize).2 = 0) := by
  refine ⟨fun h => ?_, fun h => ?_⟩
  · simp [compress_backup, compressRatioPct, h]
  · simp [compress_backup, compressRatioPct, h]

theorem compress_ratio_c7_witness :
    (compress_backup ⟨"/b", [], []⟩ 0 7).2 = 0 ∧
    (compress_backup oneFileSnap 7 5).2 =
      (1 - (5 : ℚ) / ((snapDiskSize oneFileSnap 7 : ℕ) : ℚ)) * 100 ∧
    snapDiskSize oneFileSnap 7 = 10 :=
  ⟨(compress_ratio_c7 ⟨"/b", [], []⟩ 0 7).2 rfl,
   (compress_ratio_c7 oneFileSnap 7 5).1 (by decide), by decide⟩

/-- C8: `list_backups` returns the snapshot summaries sorted by creation
timestamp in descending order, and calling it twice on the same store
state yields identical, order-stable results. -/
theorem list_backups_sorted_c8 (store : ListStore) :
    List.Sorted tsGE (list_backups store) ∧
    list_backups store = list_backups store := by
  refine ⟨?_, rfl⟩
  unfold list_backups
  exact List.sorted_insertionSort tsGE _

/-- C9: the `files_failed` counter in any persisted run summary is always
zero — no code path updates it after its initialisation in `__init__`. -/
theorem summary_files_failed_zero_c9 (profileFound : Bool)
    (rules : ClassificationRules) (files : List String)
    (awsR protonR localR : Bool) (s : RunSummary)
    (hs : (backup_profile profileFound rules files awsR protonR localR).2.2 =
      some s) :
    s.files_failed = 0 := by
  cases hpf : profileFound
  · simp [backup_profile, hpf] at hs
  · cases hfe : files.isEmpty
    · simp only [backup_profile, hpf, hfe, Bool.not_true, Bool.false_eq_true,
        if_false, Option.some.injEq] at hs
      rw [← hs]
    · simp [backup_profile, hpf, hfe] at hs

theorem summary_files_failed_zero_c9_witness :
    (backup_profile true demoRules demoFiles true true true).2.2 =
      some ⟨3, 0, ["aws_primary", "proton_sensitive", "local_airgapped"]⟩ ∧
    (⟨3, 0, ["aws_primary", "proton_sensitive", "local_airgapped"]⟩ :
        RunSummary).files_failed = 0 :=
  ⟨by decide,
   summary_files_failed_zero_c9 true demoRules demoFiles true true true
     ⟨3, 0, ["aws_primary", "proton_sensitive", "local_airgapped"]⟩
     (by decide)⟩

end BackupRecovery
